import Mathlib

/-!
Shallow embedding of the retail/loan backend (`server.js` over the SQLite
schema in `db_init.sql`).

Modelling conventions, fixed once for the whole file:

* SQL `TEXT` values and JS strings are modelled as lists of characters
  (`Str`).  A JSON body field that may be absent is an `Option`: `none`
  means the key is missing from the body (JS `undefined`).  Explicit JSON
  `null` values are outside the request model (for every validated field
  the express-validator chain rejects them, and no claim depends on the
  unvalidated ones).
* SQL `REAL` columns are modelled as `ℚ` and `INTEGER` columns as `ℤ`
  (the store is idealised as exact arithmetic, per the specification's
  treatment of the storage engine as an external transactional store).
* The driver is `better-sqlite3`: foreign-key enforcement is compiled in
  and on by default, so every `INSERT`/`DELETE` checks the declared
  foreign keys; and binding JS `undefined` as a statement parameter
  throws a `TypeError` before the statement executes.  Handlers with a
  `try/catch` turn any thrown error into an HTTP 400; handlers without
  one let Express forward the throw to the error middleware, an HTTP 500.
* Each endpoint is a pure function `DB → request → DB × Resp`: the state
  after the call together with the HTTP outcome.  `new Date()` is passed
  in as an explicit `today` argument where the code defaults a date.
-/

/-- A SQL TEXT / JS string value, as its list of characters. -/
abbrev Str := List Char

/-- JS `a || b` for an optional string `a`: both `undefined` and the empty
string are falsy, so they select the default. -/
def jsOrStr (o : Option Str) (d : Str) : Str :=
  match o with
  | none => d
  | some s => if s = [] then d else s

/-- JS `a || b` for an optional rational number `a`: `undefined` and `0`
are falsy, so they select the default. -/
def jsOrNum (o : Option ℚ) (d : ℚ) : ℚ :=
  match o with
  | none => d
  | some x => if x = 0 then d else x

/-- JS `a || b` for an optional integer `a`: `undefined` and `0` are
falsy, so they select the default. -/
def jsOrInt (o : Option ℤ) (d : ℤ) : ℤ :=
  match o with
  | none => d
  | some x => if x = 0 then d else x

/-- JS `a || null` for an optional string: `undefined` and the empty
string become SQL NULL, anything else is kept. -/
def jsOrNull (o : Option Str) : Option Str :=
  match o with
  | none => none
  | some s => if s = [] then none else some s

/-- A row of the `customers` table. -/
structure Customer where
  cust_id : Str
  cust_name : Str
  email : Option Str
  phone_no : Option Str
  house_no : Option Str
  street_name : Option Str
  city_name : Option Str
deriving DecidableEq

/-- A row of the `suppliers` table. -/
structure Supplier where
  supplier_id : Str
  supplier_name : Str
  enterprise_name : Option Str
  email_id : Option Str
  phone_no : Option Str
  address : Option Str
deriving DecidableEq

/-- A row of the `products` table.  `price` and `quantity_stock` are
written by every service path with a concrete number (the create handler
defaults them with `|| 0`), so they are modelled non-null. -/
structure Product where
  product_id : Str
  product_name : Str
  category : Option Str
  price : ℚ
  quantity_stock : ℤ
  supplier_id : Option Str
deriving DecidableEq

/-- A row of the `stock` table.  Every service write binds a concrete
supplier, product, quantity and date, so those are modelled non-null. -/
structure StockEntry where
  stock_id : Str
  supplier_id : Str
  product_id : Str
  quantity : ℤ
  date_added : Str
deriving DecidableEq

/-- A row of the `invoices` table. -/
structure Invoice where
  invoice_id : Str
  cust_id : Str
  total_amt : ℚ
  date : Str
  payment_mode : Str
deriving DecidableEq

/-- A row of the `sales` table.  `invoice_id` is nullable: the create
handler stores `invoice_id || null`. -/
structure Sale where
  sales_id : Str
  product_id : Str
  invoice_id : Option Str
  quantity_sold : ℤ
  price_total : ℚ
deriving DecidableEq

/-- A row of the `loans` table. -/
structure Loan where
  loan_id : Str
  cust_id : Str
  loan_amount : ℚ
  interest_rate : ℚ
  balance : ℚ
deriving DecidableEq

/-- A row of the `payments` table. -/
structure Payment where
  pay_id : Str
  loan_id : Str
  payment_date : Str
  amount_paid : ℚ
  payment_mode : Str
deriving DecidableEq

/-- The whole relational store: the eight tables of `db_init.sql`. -/
structure DB where
  customers : List Customer
  suppliers : List Supplier
  products : List Product
  stock : List StockEntry
  invoices : List Invoice
  sales : List Sale
  loans : List Loan
  payments : List Payment
deriving DecidableEq

/-- The outcome an endpoint reports: HTTP success, or an error status
(400 validation/constraint, 404 not found, 500 uncaught throw). -/
inductive Resp where
  | ok
  | err (code : ℕ)
deriving DecidableEq

/-! ## Request bodies

One structure per endpoint body.  A field of type `Option _` may be
absent from the JSON body (`none`); fields that the express-validator
chain requires are non-optional. -/

/-- Body of `POST /api/customers`. -/
structure CustomerReq where
  cust_id : Str
  cust_name : Str
  email : Option Str
  phone_no : Option Str
  house_no : Option Str
  street_name : Option Str
  city_name : Option Str

/-- Body of `POST /api/products`. -/
structure ProductReq where
  product_id : Str
  product_name : Str
  category : Option Str
  price : Option ℚ
  quantity_stock : Option ℤ
  supplier_id : Option Str

/-- Body of `PUT /api/products/:id` (every field optional). -/
structure ProductUpd where
  product_name : Option Str
  category : Option Str
  price : Option ℚ
  quantity_stock : Option ℤ
  supplier_id : Option Str

/-- Body of `POST /api/stock`. -/
structure StockReq where
  stock_id : Str
  supplier_id : Option Str
  product_id : Str
  quantity : ℤ
  date_added : Option Str

/-- Body of `POST /api/invoices`. -/
structure InvoiceReq where
  invoice_id : Str
  cust_id : Str
  total_amt : ℚ
  date : Option Str
  payment_mode : Option Str

/-- Body of `POST /api/sales`. -/
structure SaleReq where
  sales_id : Str
  product_id : Str
  invoice_id : Option Str
  quantity_sold : ℤ
  price_total : ℚ

/-- Body of `POST /api/loans`. -/
structure LoanReq where
  loan_id : Str
  cust_id : Str
  loan_amount : ℚ
  interest_rate : Option ℚ
  balance : Option ℚ

/-- Body of `POST /api/payments`. -/
structure PaymentReq where
  pay_id : Str
  loan_id : Str
  payment_date : Option Str
  amount_paid : ℚ
  payment_mode : Option Str

/-! ## Table lookups -/

/-- Does a customer row with this id exist? -/
def hasCustomer (db : DB) (id : Str) : Bool :=
  db.customers.any (fun c => decide (c.cust_id = id))

/-- Does a supplier row with this id exist? -/
def hasSupplier (db : DB) (id : Str) : Bool :=
  db.suppliers.any (fun s => decide (s.supplier_id = id))

/-- Does a product row with this id exist? -/
def hasProduct (db : DB) (id : Str) : Bool :=
  db.products.any (fun p => decide (p.product_id = id))

/-- Does an invoice row with this id exist? -/
def hasInvoice (db : DB) (id : Str) : Bool :=
  db.invoices.any (fun v => decide (v.invoice_id = id))

/-- Does a loan row with this id exist? -/
def hasLoan (db : DB) (id : Str) : Bool :=
  db.loans.any (fun l => decide (l.loan_id = id))

/-- `SELECT * FROM customers WHERE cust_id = ?` (`GET /api/customers/:id`). -/
def getCustomer (db : DB) (id : Str) : Option Customer :=
  db.customers.find? (fun c => decide (c.cust_id = id))

/-- The `quantity_stock` of the product row with the given id, if any. -/
def lookupQty (ps : List Product) (pid : Str) : Option ℤ :=
  (ps.find? (fun p => decide (p.product_id = pid))).map Product.quantity_stock

/-- The `balance` of the loan row with the given id, if any. -/
def lookupBalance (ls : List Loan) (lid : Str) : Option ℚ :=
  (ls.find? (fun l => decide (l.loan_id = lid))).map Loan.balance

/-! ## Derived-write helpers -/

/-- `UPDATE products SET quantity_stock = quantity_stock + d WHERE
product_id = pid` (the sale handler passes a negative `d`). -/
def updateProdQty (pid : Str) (d : ℤ) (ps : List Product) : List Product :=
  ps.map (fun p =>
    if p.product_id = pid then { p with quantity_stock := p.quantity_stock + d } else p)

/-- `UPDATE loans SET balance = balance - d WHERE loan_id = lid`. -/
def updateLoanBalance (lid : Str) (d : ℚ) (ls : List Loan) : List Loan :=
  ls.map (fun l =>
    if l.loan_id = lid then { l with balance := l.balance - d } else l)

/-! ## Endpoint handlers

Each function returns the store after the call together with the HTTP
outcome.  Failure ordering inside a handler follows the code: the
express-validator middleware runs first (400), then the handler's own
`SELECT` checks (404), then parameter binding (a `TypeError` on any
`undefined` argument, raised before the statement runs), then the
statement's own PRIMARY KEY / FOREIGN KEY checks. -/

/-- `POST /api/customers`: validators require a string `cust_id` and a
non-empty `cust_name`; the insert binds all seven body fields directly,
so any absent optional field throws at bind time; the `try/catch` maps
every throw to 400. -/
def createCustomer (db : DB) (r : CustomerReq) : DB × Resp :=
  if r.cust_name = [] then (db, .err 400)
  else
    match r.email, r.phone_no, r.house_no, r.street_name, r.city_name with
    | some em, some ph, some ho, some st, some ci =>
        if hasCustomer db r.cust_id then (db, .err 400)
        else ({ db with customers := db.customers ++
                  [⟨r.cust_id, r.cust_name, some em, some ph, some ho, some st, some ci⟩] },
              .ok)
    | _, _, _, _, _ => (db, .err 400)

/-- `DELETE /api/customers/:id`: the `DELETE` statement throws a
foreign-key error when an invoice or loan still references the customer
(no `try/catch`, so a 500); with no match it reports 0 changes (404). -/
def deleteCustomer (db : DB) (id : Str) : DB × Resp :=
  if ¬ hasCustomer db id then (db, .err 404)
  else if db.invoices.any (fun v => decide (v.cust_id = id)) ||
          db.loans.any (fun l => decide (l.cust_id = id)) then (db, .err 500)
  else ({ db with customers := db.customers.filter (fun c => decide (c.cust_id ≠ id)) }, .ok)

/-- `DELETE /api/suppliers/:id`: the `DELETE` statement throws a
foreign-key error when a product or stock entry still references the
supplier (no `try/catch`, so a 500); with no match, 404. -/
def deleteSupplier (db : DB) (id : Str) : DB × Resp :=
  if ¬ hasSupplier db id then (db, .err 404)
  else if db.products.any (fun p => decide (p.supplier_id = some id)) ||
          db.stock.any (fun e => decide (e.supplier_id = id)) then (db, .err 500)
  else ({ db with suppliers := db.suppliers.filter (fun s => decide (s.supplier_id ≠ id)) }, .ok)

/-- `POST /api/products`: validators require a string `product_id` and a
non-empty `product_name`; the insert binds `category` and `supplier_id`
directly (absent → throw → 400) and defaults `price || 0` and
`quantity_stock || 0`; the FOREIGN KEY on `supplier_id` must hold. -/
def createProduct (db : DB) (r : ProductReq) : DB × Resp :=
  if r.product_name = [] then (db, .err 400)
  else
    match r.category, r.supplier_id with
    | some cat, some sup =>
        if hasProduct db r.product_id then (db, .err 400)
        else if ¬ hasSupplier db sup then (db, .err 400)
        else ({ db with products := db.products ++
                  [⟨r.product_id, r.product_name, some cat,
                    jsOrNum r.price 0, jsOrInt r.quantity_stock 0, some sup⟩] },
              .ok)
    | _, _ => (db, .err 400)

/-- `PUT /api/products/:id`: 404 if absent; the `UPDATE ... COALESCE`
binds all five body fields directly (absent → throw → 500, no
`try/catch`); with all five present every column takes the new value. -/
def updateProduct (db : DB) (id : Str) (r : ProductUpd) : DB × Resp :=
  if ¬ hasProduct db id then (db, .err 404)
  else
    match r.product_name, r.category, r.price, r.quantity_stock, r.supplier_id with
    | some nm, some cat, some pr, some qs, some sup =>
        ({ db with products := db.products.map (fun p =>
             if p.product_id = id then
               { p with product_name := nm, category := some cat, price := pr,
                        quantity_stock := qs, supplier_id := some sup }
             else p) },
         .ok)
    | _, _, _, _, _ => (db, .err 500)

/-- `DELETE /api/products/:id`: throws a foreign-key error when a stock
entry or sale still references the product (no `try/catch`, 500). -/
def deleteProduct (db : DB) (id : Str) : DB × Resp :=
  if ¬ hasProduct db id then (db, .err 404)
  else if db.stock.any (fun e => decide (e.product_id = id)) ||
          db.sales.any (fun s => decide (s.product_id = id)) then (db, .err 500)
  else ({ db with products := db.products.filter (fun p => decide (p.product_id ≠ id)) }, .ok)

/-- The stock row `POST /api/stock` inserts (defined only when
`supplier_id` is present, which the handler checks before using it). -/
def mkStockRow (r : StockReq) (today : Str) : StockEntry :=
  ⟨r.stock_id, r.supplier_id.getD [], r.product_id, r.quantity, jsOrStr r.date_added today⟩

/-- `POST /api/stock`: validators require `quantity ≥ 1`; the insert
binds `supplier_id` directly (absent → throw → 400) and defaults
`date_added || today`; PRIMARY KEY on `stock_id` and FOREIGN KEYs on
`supplier_id` and `product_id` must hold; then the handler updates the
product's `quantity_stock` by `+ quantity`. -/
def createStock (db : DB) (r : StockReq) (today : Str) : DB × Resp :=
  if r.quantity < 1 then (db, .err 400)
  else
    match r.supplier_id with
    | some sup =>
        if db.stock.any (fun e => decide (e.stock_id = r.stock_id)) then (db, .err 400)
        else if ¬ hasSupplier db sup then (db, .err 400)
        else if ¬ hasProduct db r.product_id then (db, .err 400)
        else ({ db with stock := db.stock ++ [mkStockRow r today],
                        products := updateProdQty r.product_id r.quantity db.products },
              .ok)
    | none => (db, .err 400)

/-- `POST /api/invoices`: the insert binds `payment_mode` directly
(absent → throw → 400) and defaults `date || today`; PRIMARY KEY on
`invoice_id` and FOREIGN KEY on `cust_id` must hold. -/
def createInvoice (db : DB) (r : InvoiceReq) (today : Str) : DB × Resp :=
  match r.payment_mode with
  | some pm =>
      if hasInvoice db r.invoice_id then (db, .err 400)
      else if ¬ hasCustomer db r.cust_id then (db, .err 400)
      else ({ db with invoices := db.invoices ++
                [⟨r.invoice_id, r.cust_id, r.total_amt, jsOrStr r.date today, pm⟩] },
            .ok)
  | none => (db, .err 400)

/-- The sale row `POST /api/sales` inserts: `invoice_id || null`. -/
def mkSaleRow (r : SaleReq) : Sale :=
  ⟨r.sales_id, r.product_id, jsOrNull r.invoice_id, r.quantity_sold, r.price_total⟩

/-- `POST /api/sales`: validators require `quantity_sold ≥ 1`; the
insert stores `invoice_id || null`; PRIMARY KEY on `sales_id`, FOREIGN
KEY on `product_id`, and (when non-null) FOREIGN KEY on `invoice_id`
must hold; then the handler updates the product's `quantity_stock` by
`- quantity_sold`. -/
def createSale (db : DB) (r : SaleReq) : DB × Resp :=
  if r.quantity_sold < 1 then (db, .err 400)
  else if db.sales.any (fun s => decide (s.sales_id = r.sales_id)) then (db, .err 400)
  else if ¬ hasProduct db r.product_id then (db, .err 400)
  else if (match jsOrNull r.invoice_id with
           | none => false
           | some i => !(hasInvoice db i)) then (db, .err 400)
  else ({ db with sales := db.sales ++ [mkSaleRow r],
                  products := updateProdQty r.product_id (-r.quantity_sold) db.products },
        .ok)

/-- The loan row `POST /api/loans` inserts: `interest_rate || 0` and
`balance || loan_amount`. -/
def mkLoanRow (r : LoanReq) : Loan :=
  ⟨r.loan_id, r.cust_id, r.loan_amount, jsOrNum r.interest_rate 0,
   jsOrNum r.balance r.loan_amount⟩

/-- `POST /api/loans`: PRIMARY KEY on `loan_id` and FOREIGN KEY on
`cust_id` must hold; `interest_rate` defaults to 0 and `balance` to
`loan_amount` through JS `||`. -/
def createLoan (db : DB) (r : LoanReq) : DB × Resp :=
  if hasLoan db r.loan_id then (db, .err 400)
  else if ¬ hasCustomer db r.cust_id then (db, .err 400)
  else ({ db with loans := db.loans ++ [mkLoanRow r] }, .ok)

/-- `'Cash'`, the default payment mode. -/
def cashStr : Str := ['C', 'a', 's', 'h']

/-- The payment row `POST /api/payments` inserts: date defaults to
today, mode to `'Cash'`, both through JS `||`. -/
def mkPaymentRow (r : PaymentReq) (today : Str) : Payment :=
  ⟨r.pay_id, r.loan_id, jsOrStr r.payment_date today, r.amount_paid,
   jsOrStr r.payment_mode cashStr⟩

/-- `POST /api/payments`: PRIMARY KEY on `pay_id` and FOREIGN KEY on
`loan_id` must hold; then the handler updates the loan's `balance` by
`- amount_paid`. -/
def createPayment (db : DB) (r : PaymentReq) (today : Str) : DB × Resp :=
  if db.payments.any (fun p => decide (p.pay_id = r.pay_id)) then (db, .err 400)
  else if ¬ hasLoan db r.loan_id then (db, .err 400)
  else ({ db with payments := db.payments ++ [mkPaymentRow r today],
                  loans := updateLoanBalance r.loan_id r.amount_paid db.loans },
        .ok)

/-! ## `GET /api/customers` — free-text filter

The handler runs
`SELECT * FROM customers WHERE lower(cust_id||' '||cust_name||' '||email||' '||phone_no||' '||city_name) LIKE ? ORDER BY cust_name LIMIT 1000 OFFSET 0`
with the parameter `'%' + q.toLowerCase() + '%'` when `q` is truthy, and
the same query without the `WHERE` when it is not.  SQL `||` propagates
NULL, `NULL LIKE p` is NULL, and a NULL `WHERE` clause filters the row
out.  SQLite's `LIKE` folds ASCII case on both operands; both operands
here are already lowercased, so the fold is the identity and `LIKE` is
plain matching with the `%` and `_` wildcards.  JS `toLowerCase` and SQL
`lower` agree on ASCII and the embedding uses `Char.toLower` for both. -/

/-- ASCII case folding.  This is exactly SQLite's `lower()` (applied to
the column side), but only approximates JS `q.toLowerCase()` (applied to
the filter side), which also folds non-ASCII letters; the C8 theorem is
therefore stated for ASCII filters, where the two folds agree. -/
def lowerStr (s : Str) : Str := s.map Char.toLower

/-- All suffixes of a text, longest first. -/
def tails : Str → List Str
  | [] => [[]]
  | c :: ts => (c :: ts) :: tails ts

/-- SQL `LIKE` matching of a pattern (left) against a text (right):
`%` matches any run of characters (the rest of the pattern must match
some suffix of the text), `_` any single character, anything else
itself. -/
def sqlLike : Str → Str → Bool
  | [], t => decide (t = [])
  | p :: ps, t =>
      if p = '%' then (tails t).any (fun s => sqlLike ps s)
      else
        match t with
        | [] => false
        | c :: ts => (decide (p = '_') || decide (p = c)) && sqlLike ps ts

/-- The SQL concatenation
`cust_id||' '||cust_name||' '||email||' '||phone_no||' '||city_name`:
NULL as soon as one operand is NULL. -/
def concatRow (c : Customer) : Option Str :=
  match c.email, c.phone_no, c.city_name with
  | some em, some ph, some ci =>
      some (c.cust_id ++ [' '] ++ c.cust_name ++ [' '] ++ em ++ [' '] ++ ph ++ [' '] ++ ci)
  | _, _, _ => none

/-- The row filter of the `q` branch: does the lowercased concatenation
match `'%' + lower(q) + '%'`?  A NULL concatenation never matches. -/
def likeRow (q : Str) (c : Customer) : Bool :=
  match concatRow c with
  | none => false
  | some t => sqlLike ('%' :: (lowerStr q ++ ['%'])) (lowerStr t)

/-- Byte-wise (code point) lexicographic `≤` on text, SQLite's BINARY
collation used by `ORDER BY cust_name`. -/
def strLe : Str → Str → Bool
  | [], _ => true
  | _ :: _, [] => false
  | a :: as, b :: bs => if a = b then strLe as bs else decide (a < b)

/-- One insertion step of sorting customers by name. -/
def insertByName (c : Customer) : List Customer → List Customer
  | [] => [c]
  | d :: ds => if strLe c.cust_name d.cust_name then c :: d :: ds else d :: insertByName c ds

/-- `ORDER BY cust_name` as an insertion sort. -/
def sortByName : List Customer → List Customer
  | [] => []
  | c :: cs => insertByName c (sortByName cs)

/-- `GET /api/customers`: with a truthy `q`, filter by `likeRow`, order
by name, first 1000 rows; otherwise all rows ordered by name, first
1000.  (The `page` parameter is read but unused: both branches hardcode
`LIMIT 1000 OFFSET 0`.) -/
def listCustomers (db : DB) (q : Str) : List Customer :=
  if q = [] then (sortByName db.customers).take 1000
  else (sortByName (db.customers.filter (fun c => likeRow q c))).take 1000

/-- `p` occurs as a contiguous substring of `t`. -/
def isSub (p t : Str) : Prop := ∃ u v, t = u ++ p ++ v

/-- Neither `LIKE` wildcard occurs in `p`. -/
def noWild (p : Str) : Prop := '%' ∉ p ∧ '_' ∉ p

/-! ## Operation sequences (for the running-total invariants) -/

/-- One derived-write operation against the stock of some product:
a `POST /api/stock` (with its current date) or a `POST /api/sales`. -/
inductive StockOp where
  | receipt (r : StockReq) (today : Str)
  | sell (r : SaleReq)

/-- The product an operation targets. -/
def StockOp.target : StockOp → Str
  | .receipt r _ => r.product_id
  | .sell r => r.product_id

/-- Dispatch one operation to its endpoint. -/
def applyStockOp (db : DB) : StockOp → DB × Resp
  | .receipt r today => createStock db r today
  | .sell r => createSale db r

/-- Run a sequence of stock operations, requiring every one to succeed
(`none` as soon as one reports an error). -/
def runStockOps (db : DB) : List StockOp → Option DB
  | [] => some db
  | op :: ops =>
      match applyStockOp db op with
      | (db', .ok) => runStockOps db' ops
      | (_, .err _) => none

/-- Sum of the receipt quantities in a sequence. -/
def sumReceipts : List StockOp → ℤ
  | [] => 0
  | .receipt r _ :: ops => r.quantity + sumReceipts ops
  | .sell _ :: ops => sumReceipts ops

/-- Sum of the quantities sold in a sequence. -/
def sumSales : List StockOp → ℤ
  | [] => 0
  | .receipt _ _ :: ops => sumSales ops
  | .sell r :: ops => r.quantity_sold + sumSales ops

/-- Run a sequence of `POST /api/payments` calls (each with its current
date), requiring every one to succeed. -/
def runPayments (db : DB) : List (PaymentReq × Str) → Option DB
  | [] => some db
  | (r, today) :: ps =>
      match createPayment db r today with
      | (db', .ok) => runPayments db' ps
      | (_, .err _) => none

/-- Sum of the `amount_paid` fields of a payment sequence. -/
def sumPaid : List (PaymentReq × Str) → ℚ
  | [] => 0
  | (r, _) :: ps => r.amount_paid + sumPaid ps

/-! ## Endpoint case analyses

Each derived-write endpoint either succeeds and applies both of its
writes, or reports an error (every failure path in these handlers is a
caught throw or validator rejection, an HTTP 400) and returns the store
untouched. -/

/-- `POST /api/stock` either inserts the entry and increments the
product's stock, or fails with 400 leaving the store unchanged. -/
theorem createStock_cases (db : DB) (r : StockReq) (today : Str) :
    createStock db r today =
      ({ db with stock := db.stock ++ [mkStockRow r today],
                 products := updateProdQty r.product_id r.quantity db.products }, Resp.ok)
    ∨ createStock db r today = (db, Resp.err 400) := by
  unfold createStock
  rcases hs : r.supplier_id with _ | sup
  · simp
  · simp only [hs]
    split_ifs <;> simp

/-- `POST /api/sales` either inserts the sale and decrements the
product's stock, or fails with 400 leaving the store unchanged. -/
theorem createSale_cases (db : DB) (r : SaleReq) :
    createSale db r =
      ({ db with sales := db.sales ++ [mkSaleRow r],
                 products := updateProdQty r.product_id (-r.quantity_sold) db.products }, Resp.ok)
    ∨ createSale db r = (db, Resp.err 400) := by
  unfold createSale
  split_ifs <;> simp

/-- `POST /api/payments` either inserts the payment and decrements the
loan's balance, or fails with 400 leaving the store unchanged. -/
theorem createPayment_cases (db : DB) (r : PaymentReq) (today : Str) :
    createPayment db r today =
      ({ db with payments := db.payments ++ [mkPaymentRow r today],
                 loans := updateLoanBalance r.loan_id r.amount_paid db.loans }, Resp.ok)
    ∨ createPayment db r today = (db, Resp.err 400) := by
  unfold createPayment
  split_ifs <;> simp

/-- `POST /api/loans` either inserts the loan row, or fails with 400
leaving the store unchanged. -/
theorem createLoan_cases (db : DB) (r : LoanReq) :
    createLoan db r = ({ db with loans := db.loans ++ [mkLoanRow r] }, Resp.ok)
    ∨ createLoan db r = (db, Resp.err 400) := by
  unfold createLoan
  split_ifs <;> simp

/-! ## Lookup lemmas -/

/-- Reading the updated product's stock after
`UPDATE products SET quantity_stock = quantity_stock + d`. -/
theorem lookupQty_updateProdQty (ps : List Product) (pid : Str) (d : ℤ) :
    lookupQty (updateProdQty pid d ps) pid = (lookupQty ps pid).map (fun x => x + d) := by
  induction ps with
  | nil => rfl
  | cons p ps ih =>
    simp only [updateProdQty, List.map_cons] at ih ⊢
    by_cases h : p.product_id = pid
    · simp [lookupQty, List.find?_cons, h]
    · rw [if_neg h]
      simp only [lookupQty, List.find?_cons] at ih ⊢
      rw [decide_eq_false h]
      exact ih

/-- Reading the updated loan's balance after
`UPDATE loans SET balance = balance - d`. -/
theorem lookupBalance_updateLoanBalance (ls : List Loan) (lid : Str) (d : ℚ) :
    lookupBalance (updateLoanBalance lid d ls) lid = (lookupBalance ls lid).map (fun x => x - d) := by
  induction ls with
  | nil => rfl
  | cons l ls ih =>
    simp only [updateLoanBalance, List.map_cons] at ih ⊢
    by_cases h : l.loan_id = lid
    · simp [lookupBalance, List.find?_cons, h]
    · rw [if_neg h]
      simp only [lookupBalance, List.find?_cons] at ih ⊢
      rw [decide_eq_false h]
      exact ih

/-- `find?` skips a front segment with no match. -/
theorem find?_append_none {α : Type} (p : α → Bool) (l₁ l₂ : List α)
    (h : l₁.find? p = none) : (l₁ ++ l₂).find? p = l₂.find? p := by
  induction l₁ with
  | nil => simp
  | cons a l ih =>
    cases hp : p a with
    | true => simp [List.find?_cons, hp] at h
    | false =>
      simp only [List.cons_append, List.find?_cons, hp] at h ⊢
      exact ih h

/-- A list with an everywhere-false `any` has no `find?` hit. -/
theorem find?_eq_none_of_any_false {α : Type} (p : α → Bool) (l : List α)
    (h : l.any p = false) : l.find? p = none := by
  rw [List.find?_eq_none]
  intro x hx hpx
  rw [List.any_eq_false] at h
  exact h x hx hpx

/-- The balance of a freshly appended loan row (fresh primary key). -/
theorem lookupBalance_append (ls : List Loan) (row : Loan)
    (h : ls.any (fun l => decide (l.loan_id = row.loan_id)) = false) :
    lookupBalance (ls ++ [row]) row.loan_id = some row.balance := by
  unfold lookupBalance
  rw [find?_append_none _ _ _ (find?_eq_none_of_any_false _ _ h)]
  simp [List.find?_cons]

/-! ## Claim theorems -/

/-- C1: for each of the three derived-write operations (`POST /api/stock`,
`POST /api/sales`, `POST /api/payments`), the triggering insert and the
propagation update commit together or neither persists: the call either
succeeds with both the inserted row and the stock/balance adjustment
applied, or fails (HTTP 400) with the store exactly as before the
operation. -/
theorem spec_c1_derived_write_atomicity :
    (∀ (db : DB) (r : StockReq) (today : Str),
        createStock db r today =
          ({ db with stock := db.stock ++ [mkStockRow r today],
                     products := updateProdQty r.product_id r.quantity db.products }, Resp.ok)
        ∨ createStock db r today = (db, Resp.err 400))
    ∧ (∀ (db : DB) (r : SaleReq),
        createSale db r =
          ({ db with sales := db.sales ++ [mkSaleRow r],
                     products := updateProdQty r.product_id (-r.quantity_sold) db.products }, Resp.ok)
        ∨ createSale db r = (db, Resp.err 400))
    ∧ (∀ (db : DB) (r : PaymentReq) (today : Str),
        createPayment db r today =
          ({ db with payments := db.payments ++ [mkPaymentRow r today],
                     loans := updateLoanBalance r.loan_id r.amount_paid db.loans }, Resp.ok)
        ∨ createPayment db r today = (db, Resp.err 400)) :=
  ⟨createStock_cases, createSale_cases, createPayment_cases⟩

/-- C2: every valid record-sale request against an existing product
(fresh `sales_id`, quantity at least 1, invoice reference absent or
valid) succeeds, inserts the sale row, and decrements that product's
`quantity_stock` by exactly `quantity_sold`. -/
theorem spec_c2_record_sale (db : DB) (r : SaleReq)
    (hq : 1 ≤ r.quantity_sold)
    (hpk : db.sales.any (fun s => decide (s.sales_id = r.sales_id)) = false)
    (hfk : hasProduct db r.product_id = true)
    (hinv : ∀ i, jsOrNull r.invoice_id = some i → hasInvoice db i = true) :
    createSale db r =
      ({ db with sales := db.sales ++ [mkSaleRow r],
                 products := updateProdQty r.product_id (-r.quantity_sold) db.products }, Resp.ok)
    ∧ lookupQty (updateProdQty r.product_id (-r.quantity_sold) db.products) r.product_id
        = (lookupQty db.products r.product_id).map (fun x => x - r.quantity_sold) := by
  constructor
  · have h4 : (match jsOrNull r.invoice_id with
               | none => false
               | some i => !(hasInvoice db i)) = false := by
      cases hj : jsOrNull r.invoice_id with
      | none => rfl
      | some i => simp [hinv i hj]
    unfold createSale
    rw [if_neg (by omega), if_neg (by simp [hpk]), if_neg (by simp [hfk]), if_neg (by simp [h4])]
  · rw [lookupQty_updateProdQty]
    cases lookupQty db.products r.product_id with
    | none => rfl
    | some v =>
      show some (v + -r.quantity_sold) = some (v - r.quantity_sold)
      exact congrArg some (by ring)

def pidW : Str := ['P', '1']
def productW : Product := ⟨pidW, ['W'], none, 250, 20, none⟩
def dbC2 : DB := ⟨[], [], [productW], [], [], [], [], []⟩
def saleW : SaleReq := ⟨['S', 'A'], pidW, none, 3, 750⟩

/-- C2 witness: a sale of 3 against a product with `quantity_stock = 20`
(and no invoice reference) succeeds and leaves `quantity_stock = 17`. -/
theorem spec_c2_record_sale_witness :
    (createSale dbC2 saleW).2 = Resp.ok ∧
    lookupQty (createSale dbC2 saleW).1.products pidW = some 17 := by
  have h := spec_c2_record_sale dbC2 saleW (by decide) (by decide) (by decide)
      (fun i hi => nomatch hi)
  rw [h.1]
  exact ⟨rfl, by decide⟩

/-- C3: every valid record-loan-payment request against an existing loan
(fresh `pay_id`) succeeds, inserts the payment row, and decrements that
loan's `balance` by exactly `amount_paid`; an omitted payment mode
defaults to `'Cash'` and an omitted payment date to the current date. -/
theorem spec_c3_record_payment (db : DB) (r : PaymentReq) (today : Str)
    (hpk : db.payments.any (fun p => decide (p.pay_id = r.pay_id)) = false)
    (hfk : hasLoan db r.loan_id = true) :
    createPayment db r today =
      ({ db with payments := db.payments ++ [mkPaymentRow r today],
                 loans := updateLoanBalance r.loan_id r.amount_paid db.loans }, Resp.ok)
    ∧ lookupBalance (updateLoanBalance r.loan_id r.amount_paid db.loans) r.loan_id
        = (lookupBalance db.loans r.loan_id).map (fun x => x - r.amount_paid)
    ∧ (r.payment_mode = none → (mkPaymentRow r today).payment_mode = cashStr)
    ∧ (r.payment_date = none → (mkPaymentRow r today).payment_date = today) := by
  refine ⟨?_, lookupBalance_updateLoanBalance _ _ _, ?_, ?_⟩
  · unfold createPayment
    rw [if_neg (by simp [hpk]), if_neg (by simp [hfk])]
  · intro h
    simp [mkPaymentRow, jsOrStr, h]
  · intro h
    simp [mkPaymentRow, jsOrStr, h]

def lidW : Str := ['L', '1']
def loanW : Loan := ⟨lidW, ['C', '1'], 10000, 10, 8000⟩
def dbC3 : DB := ⟨[], [], [], [], [], [], [loanW], []⟩
def payW : PaymentReq := ⟨['P', 'Y'], lidW, none, 500, none⟩
def todayW : Str := ['2', '0', '2', '5']

/-- C3 witness: a payment of 500 against a loan with `balance = 8000`
succeeds and leaves `balance = 7500`, with mode defaulting to `'Cash'`
and date to the current date. -/
theorem spec_c3_record_payment_witness :
    (createPayment dbC3 payW todayW).2 = Resp.ok ∧
    lookupBalance (createPayment dbC3 payW todayW).1.loans lidW = some 7500 ∧
    (mkPaymentRow payW todayW).payment_mode = cashStr ∧
    (mkPaymentRow payW todayW).payment_date = todayW := by
  have h := spec_c3_record_payment dbC3 payW todayW (by decide) (by decide)
  refine ⟨?_, ?_, h.2.2.1 rfl, h.2.2.2 rfl⟩
  · rw [h.1]
  · rw [h.1]
    show lookupBalance (updateLoanBalance payW.loan_id payW.amount_paid dbC3.loans)
        payW.loan_id = some 7500
    rw [lookupBalance_updateLoanBalance]
    have e1 : lookupBalance dbC3.loans payW.loan_id = some (8000 : ℚ) := rfl
    rw [e1]
    show some ((8000 : ℚ) - payW.amount_paid) = some 7500
    exact congrArg some (by norm_num [payW])

/-- C10: on a successful loan create, the stored balance is the
request's `balance` field exactly when that field is present and
non-zero; when the field is absent or zero (JS-falsy), the stored
balance is `loan_amount` instead. -/
theorem spec_c10_loan_balance_default (db db' : DB) (r : LoanReq)
    (h : createLoan db r = (db', Resp.ok)) :
    (∀ b : ℚ, r.balance = some b → b ≠ 0 → lookupBalance db'.loans r.loan_id = some b)
    ∧ ((r.balance = none ∨ r.balance = some 0) →
        lookupBalance db'.loans r.loan_id = some r.loan_amount) := by
  have h1 : hasLoan db r.loan_id = false := by
    by_contra hc
    have he : createLoan db r = (db, Resp.err 400) := by
      unfold createLoan
      rw [if_pos (by simpa using Bool.not_eq_false _ ▸ hc)]
    rw [he] at h
    simp at h
  have hshape : db' = { db with loans := db.loans ++ [mkLoanRow r] } := by
    rcases createLoan_cases db r with hc | hc
    · rw [hc] at h
      exact ((congrArg Prod.fst h).symm : _)
    · rw [hc] at h
      simp at h
  have hfresh : db.loans.any (fun l => decide (l.loan_id = (mkLoanRow r).loan_id)) = false := by
    simpa [hasLoan, mkLoanRow] using h1
  have hb := lookupBalance_append db.loans (mkLoanRow r) hfresh
  rw [hshape]
  constructor
  · intro b hbal hnz
    simpa [mkLoanRow, jsOrNum, hbal, hnz] using hb
  · intro hfalsy
    rcases hfalsy with hf | hf
    · simpa [mkLoanRow, jsOrNum, hf] using hb
    · simpa [mkLoanRow, jsOrNum, hf] using hb

def custW : Customer := ⟨['C', '1'], ['A'], none, none, none, none, none⟩
def dbC10 : DB := ⟨[custW], [], [], [], [], [], [], []⟩
def loanReqW : LoanReq := ⟨['L', '2'], ['C', '1'], 10000, none, some 8000⟩

/-- C10 witness: creating a loan with `loan_amount = 10000` and an
explicit `balance = 8000` stores balance 8000, different from
`loan_amount`. -/
theorem spec_c10_loan_balance_default_witness :
    lookupBalance ({ dbC10 with loans := dbC10.loans ++ [mkLoanRow loanReqW] } : DB).loans
        loanReqW.loan_id = some 8000 ∧ (8000 : ℚ) ≠ 10000 := by
  have hc : createLoan dbC10 loanReqW =
      ({ dbC10 with loans := dbC10.loans ++ [mkLoanRow loanReqW] }, Resp.ok) := by
    unfold createLoan
    rw [if_neg (by decide), if_neg (by decide)]
  have h := spec_c10_loan_balance_default dbC10 _ loanReqW hc
  exact ⟨h.1 8000 rfl (by norm_num), by norm_num⟩

/-- C4: for every product and every interleaved sequence of successful
stock-receipt and sale operations against it, the final `quantity_stock`
equals the initial value plus the sum of the receipt quantities minus
the sum of the quantities sold, whatever the interleaving order. -/
theorem spec_c4_stock_accounting (ops : List StockOp) (p : Str) :
    ∀ db db' : DB, (∀ op ∈ ops, op.target = p) → runStockOps db ops = some db' →
      lookupQty db'.products p =
        (lookupQty db.products p).map (fun x => x + sumReceipts ops - sumSales ops) := by
  induction ops with
  | nil =>
    intro db db' _ hrun
    simp only [runStockOps, Option.some.injEq] at hrun
    subst hrun
    cases lookupQty db.products p with
    | none => rfl
    | some v =>
      show some v = some (v + sumReceipts [] - sumSales [])
      exact congrArg some (by simp [sumReceipts, sumSales])
  | cons op ops ih =>
    intro db db' htgt hrun
    have htl : ∀ o ∈ ops, StockOp.target o = p := fun o ho => htgt o (List.mem_cons_of_mem _ ho)
    cases op with
    | receipt r today =>
      have hop : r.product_id = p := htgt _ (List.mem_cons_self _ _)
      rcases createStock_cases db r today with hok | herr
      · simp only [runStockOps, applyStockOp, hok] at hrun
        have h2 := ih _ db' htl hrun
        rw [h2]
        have h3 : lookupQty (updateProdQty r.product_id r.quantity db.products) p =
            (lookupQty db.products p).map (fun x => x + r.quantity) := by
          rw [hop]
          exact lookupQty_updateProdQty db.products p r.quantity
        show ((lookupQty (updateProdQty r.product_id r.quantity db.products) p).map
            (fun x => x + sumReceipts ops - sumSales ops)) = _
        rw [h3]
        cases lookupQty db.products p with
        | none => rfl
        | some v =>
          show some (v + r.quantity + sumReceipts ops - sumSales ops) =
            some (v + sumReceipts (StockOp.receipt r today :: ops)
                    - sumSales (StockOp.receipt r today :: ops))
          exact congrArg some (by simp [sumReceipts, sumSales]; ring)
      · simp only [runStockOps, applyStockOp, herr] at hrun
        exact absurd hrun (by simp)
    | sell r =>
      have hop : r.product_id = p := htgt _ (List.mem_cons_self _ _)
      rcases createSale_cases db r with hok | herr
      · simp only [runStockOps, applyStockOp, hok] at hrun
        have h2 := ih _ db' htl hrun
        rw [h2]
        have h3 : lookupQty (updateProdQty r.product_id (-r.quantity_sold) db.products) p =
            (lookupQty db.products p).map (fun x => x + -r.quantity_sold) := by
          rw [hop]
          exact lookupQty_updateProdQty db.products p (-r.quantity_sold)
        show ((lookupQty (updateProdQty r.product_id (-r.quantity_sold) db.products) p).map
            (fun x => x + sumReceipts ops - sumSales ops)) = _
        rw [h3]
        cases lookupQty db.products p with
        | none => rfl
        | some v =>
          show some (v + -r.quantity_sold + sumReceipts ops - sumSales ops) =
            some (v + sumReceipts (StockOp.sell r :: ops) - sumSales (StockOp.sell r :: ops))
          exact congrArg some (by simp [sumReceipts, sumSales]; ring)
      · simp only [runStockOps, applyStockOp, herr] at hrun
        exact absurd hrun (by simp)

def supC4 : Supplier := ⟨['S'], ['R'], none, none, none, none⟩
def prodC4 : Product := ⟨['P'], ['W'], none, 0, 20, none⟩
def dbC4 : DB := ⟨[], [supC4], [prodC4], [], [], [], [], []⟩
def dayC4 : Str := ['D']
def opsC4 : List StockOp :=
  [.receipt ⟨['T', '1'], some ['S'], ['P'], 5, none⟩ dayC4,
   .sell ⟨['X'], ['P'], none, 3, 10⟩,
   .receipt ⟨['T', '2'], some ['S'], ['P'], 2, none⟩ dayC4]
def dbC4fin : DB := (runStockOps dbC4 opsC4).getD dbC4

/-- C4 witness: with initial stock 20, receipts of 5 and 2 interleaved
with a sale of 3 all succeed and leave stock 20 + 7 − 3 = 24. -/
theorem spec_c4_stock_accounting_witness :
    runStockOps dbC4 opsC4 = some dbC4fin ∧
    lookupQty dbC4fin.products (['P'] : Str) = some 24 := by
  have hrun : runStockOps dbC4 opsC4 = some dbC4fin := rfl
  have h := spec_c4_stock_accounting opsC4 (['P'] : Str) dbC4 dbC4fin (by decide) hrun
  refine ⟨hrun, ?_⟩
  rw [h]
  decide

/-- The balance a successful loan create stores: `balance || loan_amount`. -/
theorem createLoan_ok_balance (db db' : DB) (r : LoanReq)
    (h : createLoan db r = (db', Resp.ok)) :
    lookupBalance db'.loans r.loan_id = some (jsOrNum r.balance r.loan_amount) := by
  have h1 : hasLoan db r.loan_id = false := by
    by_contra hc
    have he : createLoan db r = (db, Resp.err 400) := by
      unfold createLoan
      rw [if_pos (by simpa using Bool.not_eq_false _ ▸ hc)]
    rw [he] at h
    simp at h
  have hshape : db' = { db with loans := db.loans ++ [mkLoanRow r] } := by
    rcases createLoan_cases db r with hc | hc
    · rw [hc] at h
      exact ((congrArg Prod.fst h).symm : _)
    · rw [hc] at h
      simp at h
  have hfresh : db.loans.any (fun l => decide (l.loan_id = (mkLoanRow r).loan_id)) = false := by
    simpa [hasLoan, mkLoanRow] using h1
  have hb := lookupBalance_append db.loans (mkLoanRow r) hfresh
  rw [hshape]
  simpa [mkLoanRow] using hb

/-- Running a sequence of successful payments against one loan
decrements its balance by the sum paid. -/
theorem runPayments_balance (ps : List (PaymentReq × Str)) (lid : Str) :
    ∀ db db' : DB, (∀ x ∈ ps, x.1.loan_id = lid) → runPayments db ps = some db' →
      lookupBalance db'.loans lid =
        (lookupBalance db.loans lid).map (fun x => x - sumPaid ps) := by
  induction ps with
  | nil =>
    intro db db' _ hrun
    simp only [runPayments, Option.some.injEq] at hrun
    subst hrun
    cases lookupBalance db.loans lid with
    | none => rfl
    | some v =>
      show some v = some (v - sumPaid [])
      exact congrArg some (by simp [sumPaid])
  | cons x ps ih =>
    intro db db' htgt hrun
    obtain ⟨r, today⟩ := x
    have hop : r.loan_id = lid := htgt _ (List.mem_cons_self _ _)
    have htl : ∀ y ∈ ps, y.1.loan_id = lid := fun y hy => htgt y (List.mem_cons_of_mem _ hy)
    rcases createPayment_cases db r today with hok | herr
    · simp only [runPayments, hok] at hrun
      have h2 := ih _ db' htl hrun
      rw [h2]
      have h3 : lookupBalance (updateLoanBalance r.loan_id r.amount_paid db.loans) lid =
          (lookupBalance db.loans lid).map (fun x => x - r.amount_paid) := by
        rw [hop]
        exact lookupBalance_updateLoanBalance db.loans lid r.amount_paid
      show ((lookupBalance (updateLoanBalance r.loan_id r.amount_paid db.loans) lid).map
          (fun x => x - sumPaid ps)) = _
      rw [h3]
      cases lookupBalance db.loans lid with
      | none => rfl
      | some v =>
        show some (v - r.amount_paid - sumPaid ps) = some (v - sumPaid ((r, today) :: ps))
        exact congrArg some (by simp [sumPaid]; ring)
    · simp only [runPayments, herr] at hrun
      exact absurd hrun (by simp)

/-- C5 (amended): for every loan created through the public API without
an explicit non-zero `balance` field (the field absent or 0, both
JS-falsy), followed by any sequence of successful payment operations
against it, the loan's balance equals `loan_amount` minus the cumulative
`amount_paid`.  (As stated the claim fails: the create endpoint also
accepts an explicit `balance` different from `loan_amount`, see the
counterexample.) -/
theorem spec_c5_loan_balance_invariant (db db' dbf : DB) (r : LoanReq)
    (ps : List (PaymentReq × Str))
    (hfalsy : r.balance = none ∨ r.balance = some 0)
    (hc : createLoan db r = (db', Resp.ok))
    (htgt : ∀ x ∈ ps, x.1.loan_id = r.loan_id)
    (hrun : runPayments db' ps = some dbf) :
    lookupBalance dbf.loans r.loan_id = some (r.loan_amount - sumPaid ps) := by
  have h1 := createLoan_ok_balance db db' r hc
  have hinit : lookupBalance db'.loans r.loan_id = some r.loan_amount := by
    rcases hfalsy with hf | hf <;> simpa [jsOrNum, hf] using h1
  have h2 := runPayments_balance ps r.loan_id db' dbf htgt hrun
  rw [h2, hinit]
  rfl

def custC5 : Customer := ⟨['C'], ['A'], none, none, none, none, none⟩
def dbC5 : DB := ⟨[custC5], [], [], [], [], [], [], []⟩
def loanReqC5 : LoanReq := ⟨['L'], ['C'], 10000, none, some 8000⟩
def dbC5x : DB := ⟨[custC5], [], [], [], [], [], [mkLoanRow loanReqC5], []⟩

/-- C5 counterexample: a loan created through `POST /api/loans` with
`loan_amount = 10000` and an explicit `balance = 8000`, followed by the
empty payment sequence, has balance 8000 ≠ loan_amount − Σ amount_paid
= 10000. -/
theorem spec_c5_loan_balance_invariant_counterexample :
    createLoan dbC5 loanReqC5 = (dbC5x, Resp.ok) ∧
    runPayments dbC5x [] = some dbC5x ∧
    sumPaid [] = 0 ∧
    ¬ lookupBalance dbC5x.loans loanReqC5.loan_id
        = some (loanReqC5.loan_amount - sumPaid []) := by
  have hbal : lookupBalance dbC5x.loans loanReqC5.loan_id
      = some (jsOrNum (some 8000) 10000) := rfl
  have h8 : jsOrNum (some (8000 : ℚ)) 10000 = 8000 := by norm_num [jsOrNum]
  refine ⟨?_, rfl, rfl, ?_⟩
  · unfold createLoan
    rw [if_neg (by decide), if_neg (by decide)]
    rfl
  · rw [hbal, h8]
    intro h
    have h2 := Option.some.inj h
    norm_num [loanReqC5, sumPaid] at h2

def loanReqC5w : LoanReq := ⟨['M'], ['C'], 10000, none, none⟩
def dbC5w : DB := ⟨[custC5], [], [], [], [], [], [mkLoanRow loanReqC5w], []⟩
def payC5a : PaymentReq := ⟨['A'], ['M'], none, 500, none⟩
def payC5b : PaymentReq := ⟨['B'], ['M'], none, 300, none⟩
def paysC5 : List (PaymentReq × Str) := [(payC5a, ['D']), (payC5b, ['D'])]
def dbC5wfin : DB := (runPayments dbC5w paysC5).getD dbC5w

/-- C5 witness: a loan of 10000 created with no explicit balance, after
payments of 500 and 300, has balance 9200. -/
theorem spec_c5_loan_balance_invariant_witness :
    runPayments dbC5w paysC5 = some dbC5wfin ∧
    lookupBalance dbC5wfin.loans (['M'] : Str) = some 9200 := by
  have hc : createLoan dbC5 loanReqC5w = (dbC5w, Resp.ok) := by
    unfold createLoan
    rw [if_neg (by decide), if_neg (by decide)]
    rfl
  have hrun : runPayments dbC5w paysC5 = some dbC5wfin := rfl
  have h := spec_c5_loan_balance_invariant dbC5 dbC5w dbC5wfin loanReqC5w paysC5
      (Or.inl rfl) hc (by decide) hrun
  refine ⟨hrun, ?_⟩
  show lookupBalance dbC5wfin.loans loanReqC5w.loan_id = some 9200
  rw [h]
  exact congrArg some (by norm_num [loanReqC5w, sumPaid, paysC5, payC5a, payC5b])

/-- C6: the store enforces referential integrity on every write: a
create naming a non-existent foreign-key target fails (HTTP 400 from the
caught constraint error) leaving the store unchanged — shown for every
foreign key the schema declares reachable from a create (product →
supplier, stock → supplier, stock → product, sale → product, sale →
invoice, invoice → customer, loan → customer, payment → loan) — and a
delete of a row still referenced by a dependent row fails with the
store's integrity error (surfacing as a 500, the handlers have no catch)
instead of succeeding or cascading — shown for every delete endpoint and
every dependent table the schema declares (supplier referenced by a
product or by a stock entry, customer by an invoice or by a loan,
product by a stock entry or by a sale), in particular deleting a
supplier referenced by an existing product. -/
theorem spec_c6_referential_integrity :
    (∀ (db : DB) (r : ProductReq) (sup : Str), r.supplier_id = some sup →
        hasSupplier db sup = false → createProduct db r = (db, Resp.err 400))
    ∧ (∀ (db : DB) (r : StockReq) (today : Str) (sup : Str), r.supplier_id = some sup →
        hasSupplier db sup = false → createStock db r today = (db, Resp.err 400))
    ∧ (∀ (db : DB) (r : StockReq) (today : Str), hasProduct db r.product_id = false →
        createStock db r today = (db, Resp.err 400))
    ∧ (∀ (db : DB) (r : SaleReq), hasProduct db r.product_id = false →
        createSale db r = (db, Resp.err 400))
    ∧ (∀ (db : DB) (r : SaleReq) (i : Str), jsOrNull r.invoice_id = some i →
        hasInvoice db i = false → createSale db r = (db, Resp.err 400))
    ∧ (∀ (db : DB) (r : InvoiceReq) (today : Str), hasCustomer db r.cust_id = false →
        createInvoice db r today = (db, Resp.err 400))
    ∧ (∀ (db : DB) (r : LoanReq), hasCustomer db r.cust_id = false →
        createLoan db r = (db, Resp.err 400))
    ∧ (∀ (db : DB) (r : PaymentReq) (today : Str), hasLoan db r.loan_id = false →
        createPayment db r today = (db, Resp.err 400))
    ∧ (∀ (db : DB) (id : Str), hasSupplier db id = true →
        db.products.any (fun p => decide (p.supplier_id = some id)) = true →
        deleteSupplier db id = (db, Resp.err 500))
    ∧ (∀ (db : DB) (id : Str), hasSupplier db id = true →
        db.stock.any (fun e => decide (e.supplier_id = id)) = true →
        deleteSupplier db id = (db, Resp.err 500))
    ∧ (∀ (db : DB) (id : Str), hasCustomer db id = true →
        db.invoices.any (fun v => decide (v.cust_id = id)) = true →
        deleteCustomer db id = (db, Resp.err 500))
    ∧ (∀ (db : DB) (id : Str), hasCustomer db id = true →
        db.loans.any (fun l => decide (l.cust_id = id)) = true →
        deleteCustomer db id = (db, Resp.err 500))
    ∧ (∀ (db : DB) (id : Str), hasProduct db id = true →
        db.stock.any (fun e => decide (e.product_id = id)) = true →
        deleteProduct db id = (db, Resp.err 500))
    ∧ (∀ (db : DB) (id : Str), hasProduct db id = true →
        db.sales.any (fun s => decide (s.product_id = id)) = true →
        deleteProduct db id = (db, Resp.err 500)) := by
  refine ⟨?_, ?_, ?_, ?_, ?_, ?_, ?_, ?_, ?_, ?_, ?_, ?_, ?_, ?_⟩
  · intro db r sup hsup hmiss
    unfold createProduct
    rcases hcat : r.category with _ | cat <;> simp [hsup, hcat, hmiss]
  · intro db r today sup hsup hmiss
    unfold createStock
    simp [hsup, hmiss]
  · intro db r today hmiss
    unfold createStock
    rcases hs : r.supplier_id with _ | sup <;> simp [hs, hmiss]
  · intro db r hmiss
    unfold createSale
    simp [hmiss]
  · intro db r i hj hmiss
    unfold createSale
    rw [hj]
    simp [hmiss]
  · intro db r today hmiss
    unfold createInvoice
    rcases hp : r.payment_mode with _ | pm <;> simp [hp, hmiss]
  · intro db r hmiss
    unfold createLoan
    simp [hmiss]
  · intro db r today hmiss
    unfold createPayment
    simp [hmiss]
  · intro db id hex href
    unfold deleteSupplier
    rw [if_neg (by simp [hex]), if_pos (by simp [href])]
  · intro db id hex href
    unfold deleteSupplier
    rw [if_neg (by simp [hex]), if_pos (by simp [href])]
  · intro db id hex href
    unfold deleteCustomer
    rw [if_neg (by simp [hex]), if_pos (by simp [href])]
  · intro db id hex href
    unfold deleteCustomer
    rw [if_neg (by simp [hex]), if_pos (by simp [href])]
  · intro db id hex href
    unfold deleteProduct
    rw [if_neg (by simp [hex]), if_pos (by simp [href])]
  · intro db id hex href
    unfold deleteProduct
    rw [if_neg (by simp [hex]), if_pos (by simp [href])]

def dbC6 : DB := ⟨[], [], [], [], [], [], [], []⟩
def prodReqC6 : ProductReq := ⟨['P'], ['N'], some [], none, none, some ['S']⟩
def supC6 : Supplier := ⟨['S'], ['R'], none, none, none, none⟩
def prodC6 : Product := ⟨['P'], ['W'], none, 0, 0, some ['S']⟩
def stockC6 : StockEntry := ⟨['T'], ['S'], ['P'], 1, ['D']⟩
def invC6 : Invoice := ⟨['I'], ['C'], 5, ['D'], ['M']⟩
def custC6 : Customer := ⟨['C'], ['A'], none, none, none, none, none⟩
def dbC6d : DB := ⟨[custC6], [supC6], [prodC6], [stockC6], [invC6], [], [], []⟩

/-- C6 witness: creating a product naming supplier `S` in an empty store
fails with 400 and no change; deleting supplier `S` while product `P`
references it, deleting customer `C` while invoice `I` references it,
and deleting product `P` while stock entry `T` references it all fail
with the store's constraint error and no change. -/
theorem spec_c6_referential_integrity_witness :
    createProduct dbC6 prodReqC6 = (dbC6, Resp.err 400) ∧
    deleteSupplier dbC6d (['S'] : Str) = (dbC6d, Resp.err 500) ∧
    deleteCustomer dbC6d (['C'] : Str) = (dbC6d, Resp.err 500) ∧
    deleteProduct dbC6d (['P'] : Str) = (dbC6d, Resp.err 500) := by
  refine ⟨spec_c6_referential_integrity.1 dbC6 prodReqC6 ['S'] rfl (by decide), ?_, ?_, ?_⟩
  · exact spec_c6_referential_integrity.2.2.2.2.2.2.2.2.1 dbC6d ['S'] (by decide) (by decide)
  · exact spec_c6_referential_integrity.2.2.2.2.2.2.2.2.2.2.1 dbC6d ['C'] (by decide) (by decide)
  · exact spec_c6_referential_integrity.2.2.2.2.2.2.2.2.2.2.2.2.1 dbC6d ['P'] (by decide) (by decide)

def reqC9 : CustomerReq := ⟨['C', '0', '1', '0'], ['T', 'e', 's', 't'], none, none, none, none, none⟩
def dbC9 : DB := ⟨[], [], [], [], [], [], [], []⟩

/-- C9 (code bug): creating customer `C010`/`Test` with no email (and no
other optional fields) does not succeed: the insert binds the absent
fields as JS `undefined`, the driver throws, the `try/catch` returns
400, and a following get-by-id is not-found instead of returning the row
with a null email. -/
theorem spec_c9_create_roundtrip_bug :
    createCustomer dbC9 reqC9 = (dbC9, Resp.err 400) ∧
    getCustomer dbC9 (['C', '0', '1', '0'] : Str) = none := by
  exact ⟨by decide, by decide⟩

/-! ## LIKE / substring lemmas (for C8) -/

/-- A list is a tail of `t` exactly when it is some `drop`. -/
theorem mem_tails (t : Str) : ∀ s, s ∈ tails t ↔ ∃ n, s = t.drop n := by
  induction t with
  | nil =>
    intro s
    simp [tails]
  | cons c ts ih =>
    intro s
    simp only [tails, List.mem_cons, ih]
    constructor
    · rintro (rfl | ⟨n, rfl⟩)
      · exact ⟨0, rfl⟩
      · exact ⟨n + 1, by simp⟩
    · rintro ⟨n, rfl⟩
      cases n with
      | zero => exact Or.inl rfl
      | succ m => exact Or.inr ⟨m, by simp⟩

/-- The pattern `%` alone matches every text. -/
theorem sqlLike_pct_any (t : Str) : sqlLike ['%'] t = true := by
  rw [show sqlLike ['%'] t = (tails t).any (fun s => sqlLike [] s) from rfl]
  rw [List.any_eq_true]
  refine ⟨[], ?_, rfl⟩
  rw [mem_tails]
  exact ⟨t.length, by simp⟩

/-- A wildcard-free pattern followed by `%` matches exactly the texts
that start with the pattern. -/
theorem sqlLike_append_pct (p : Str) :
    ∀ t, noWild p → (sqlLike (p ++ ['%']) t = true ↔ ∃ v, t = p ++ v) := by
  induction p with
  | nil =>
    intro t _
    constructor
    · intro _
      exact ⟨t, rfl⟩
    · intro _
      exact sqlLike_pct_any t
  | cons a as ih =>
    intro t hw
    have ha : a ≠ '%' := fun h => hw.1 (by rw [h]; exact List.mem_cons_self _ _)
    have hu : a ≠ '_' := fun h => hw.2 (by rw [h]; exact List.mem_cons_self _ _)
    have hw' : noWild as :=
      ⟨fun h => hw.1 (List.mem_cons_of_mem _ h), fun h => hw.2 (List.mem_cons_of_mem _ h)⟩
    cases t with
    | nil =>
      simp only [List.cons_append, sqlLike, if_neg ha]
      simp
    | cons c ts =>
      simp only [List.cons_append, sqlLike, if_neg ha]
      constructor
      · intro h
        rw [Bool.and_eq_true, Bool.or_eq_true] at h
        obtain ⟨hac | hac, hrest⟩ := h
        · exact absurd (of_decide_eq_true hac) hu
        · obtain ⟨v, hv⟩ := (ih ts hw').1 hrest
          refine ⟨v, ?_⟩
          rw [hv, of_decide_eq_true hac]
      · rintro ⟨v, hv⟩
        injection hv with h1 h2
        rw [Bool.and_eq_true, Bool.or_eq_true]
        exact ⟨Or.inr (decide_eq_true h1.symm), (ih ts hw').2 ⟨v, h2⟩⟩

/-- `LIKE '%p%'` for a wildcard-free `p` is exactly substring
occurrence. -/
theorem sqlLike_sub (p : Str) (hw : noWild p) (t : Str) :
    sqlLike ('%' :: (p ++ ['%'])) t = true ↔ isSub p t := by
  rw [show sqlLike ('%' :: (p ++ ['%'])) t
        = (tails t).any (fun s => sqlLike (p ++ ['%']) s) from rfl]
  rw [List.any_eq_true]
  constructor
  · rintro ⟨s, hs, hmatch⟩
    obtain ⟨n, rfl⟩ := (mem_tails t s).1 hs
    obtain ⟨v, hv⟩ := (sqlLike_append_pct p _ hw).1 hmatch
    refine ⟨t.take n, v, ?_⟩
    conv_lhs => rw [← List.take_append_drop n t]
    rw [hv, List.append_assoc]
  · rintro ⟨u, v, rfl⟩
    refine ⟨(u ++ p ++ v).drop u.length, ?_, ?_⟩
    · rw [mem_tails]
      exact ⟨u.length, rfl⟩
    · rw [List.append_assoc, List.drop_left]
      exact (sqlLike_append_pct p _ hw).2 ⟨v, rfl⟩

/-- Membership in one insertion step of the name sort. -/
theorem mem_insertByName (x c : Customer) (l : List Customer) :
    x ∈ insertByName c l ↔ x = c ∨ x ∈ l := by
  induction l with
  | nil => simp [insertByName]
  | cons d ds ih =>
    simp only [insertByName]
    split_ifs
    · simp
    · rw [List.mem_cons, ih, List.mem_cons]
      tauto

/-- `ORDER BY cust_name` does not change which rows are present. -/
theorem mem_sortByName (x : Customer) (l : List Customer) :
    x ∈ sortByName l ↔ x ∈ l := by
  induction l with
  | nil => simp [sortByName]
  | cons c cs ih =>
    rw [sortByName, mem_insertByName, ih, List.mem_cons]

/-- One insertion step grows the list by one. -/
theorem length_insertByName (c : Customer) (l : List Customer) :
    (insertByName c l).length = l.length + 1 := by
  induction l with
  | nil => rfl
  | cons d ds ih =>
    simp only [insertByName]
    split_ifs
    · rfl
    · simp [ih]

/-- Sorting preserves length. -/
theorem length_sortByName (l : List Customer) :
    (sortByName l).length = l.length := by
  induction l with
  | nil => rfl
  | cons c cs ih =>
    rw [sortByName, length_insertByName, ih]
    rfl

/-- The row order `ORDER BY cust_name` promises: adjacent rows are in
name order. -/
def sortedByName (l : List Customer) : Prop :=
  List.Chain' (fun a b => strLe a.cust_name b.cust_name = true) l

/-- The BINARY-collation comparison is total. -/
theorem strLe_total (a : Str) : ∀ b : Str, strLe a b = true ∨ strLe b a = true := by
  induction a with
  | nil =>
    intro b
    left
    rfl
  | cons x xs ih =>
    intro b
    cases b with
    | nil =>
      right
      rfl
    | cons y ys =>
      by_cases hxy : x = y
      · subst hxy
        simp only [strLe, if_pos rfl]
        exact ih ys
      · rcases lt_or_gt_of_ne hxy with h | h
        · left
          simp [strLe, hxy, h]
        · right
          simp [strLe, Ne.symm hxy, h]

/-- An insertion step puts either the new row or the old head first. -/
theorem head?_insertByName (c : Customer) (l : List Customer) :
    (insertByName c l).head? = some c ∨ (insertByName c l).head? = l.head? := by
  cases l with
  | nil =>
    left
    rfl
  | cons d ds =>
    simp only [insertByName]
    split_ifs
    · left
      rfl
    · right
      rfl

/-- Inserting into a name-sorted list keeps it sorted. -/
theorem sortedByName_insertByName (c : Customer) (l : List Customer)
    (hl : sortedByName l) : sortedByName (insertByName c l) := by
  unfold sortedByName at *
  induction l with
  | nil => simp [insertByName]
  | cons d ds ih =>
    simp only [insertByName]
    split_ifs with h
    · exact List.Chain'.cons h hl
    · rw [List.chain'_cons'] at hl
      rw [List.chain'_cons']
      constructor
      · intro b hb
        rcases head?_insertByName c ds with hh | hh
        · rw [hh] at hb
          have hb' : c = b := by simpa using hb
          subst hb'
          rcases strLe_total c.cust_name d.cust_name with hcd | hdc
          · exact absurd hcd h
          · exact hdc
        · rw [hh] at hb
          exact hl.1 b hb
      · exact ih hl.2

/-- The handler's `ORDER BY cust_name` output is name-sorted. -/
theorem sortedByName_sortByName (l : List Customer) : sortedByName (sortByName l) := by
  induction l with
  | nil => simp [sortByName, sortedByName]
  | cons c cs ih => exact sortedByName_insertByName c _ ih

/-- A substring occurrence carries every character of the substring into
the text. -/
theorem isSub_mem {p t : Str} (h : isSub p t) {ch : Char} (hch : ch ∈ p) : ch ∈ t := by
  obtain ⟨u, v, rfl⟩ := h
  simp only [List.mem_append]
  exact Or.inl (Or.inr hch)

set_option linter.unusedVariables false in
/-- C8 (amended): for every non-empty ASCII filter `q` with no LIKE
wildcard in its lowercase form, the customer list is sound — every
returned row is a stored row whose `email`, `phone_no` and `city_name`
are all non-NULL and whose lowercased space-separated concatenation of
id, name, email, phone and city contains lowercase `q` — complete up to
the handler's `LIMIT 1000` cap — against a table of at most 1000 rows,
every such matching row is returned — and ordered by name; with an
empty filter every stored row is returned (up to the same cap), ordered
by name.  The ASCII hypothesis marks where the embedding is faithful:
the code lowercases `q` with the JS Unicode fold while `lower()` and
`LIKE` fold ASCII only, and the model folds ASCII on both sides.  Each
restriction is forced by a conjunct of the counterexample: NULL
propagation hides matching rows, `%`/`_` in `q` match rows the substring
reading excludes, and a 1001-row table loses a matching row to the
cap. -/
theorem spec_c8_customer_filter (db : DB) (q : Str) (c : Customer)
    (hq : q ≠ [])
    (hascii : ∀ ch ∈ q, ch.toNat < 128)
    (hw : noWild (lowerStr q)) :
    (c ∈ listCustomers db q →
        c ∈ db.customers ∧ ∃ t, concatRow c = some t ∧ isSub (lowerStr q) (lowerStr t))
    ∧ (db.customers.length ≤ 1000 →
        c ∈ db.customers → (∃ t, concatRow c = some t ∧ isSub (lowerStr q) (lowerStr t)) →
        c ∈ listCustomers db q)
    ∧ sortedByName (listCustomers db q)
    ∧ (∀ x : Customer, x ∈ listCustomers db [] → x ∈ db.customers)
    ∧ (db.customers.length ≤ 1000 → ∀ x ∈ db.customers, x ∈ listCustomers db [])
    ∧ sortedByName (listCustomers db []) := by
  refine ⟨?_, ?_, ?_, ?_, ?_, ?_⟩
  · intro hc
    unfold listCustomers at hc
    rw [if_neg hq] at hc
    have hc2 := List.take_subset _ _ hc
    rw [mem_sortByName, List.mem_filter] at hc2
    refine ⟨hc2.1, ?_⟩
    have hlike := hc2.2
    unfold likeRow at hlike
    rcases hcr : concatRow c with _ | t
    · rw [hcr] at hlike
      exact absurd hlike (by simp)
    · rw [hcr] at hlike
      exact ⟨t, rfl, (sqlLike_sub _ hw _).1 hlike⟩
  · rintro hlen hcm ⟨t, hct, hsub⟩
    unfold listCustomers
    rw [if_neg hq]
    have hlen2 : (sortByName (db.customers.filter (fun c => likeRow q c))).length ≤ 1000 := by
      rw [length_sortByName]
      exact le_trans (List.length_filter_le _ _) hlen
    rw [List.take_of_length_le hlen2, mem_sortByName, List.mem_filter]
    refine ⟨hcm, ?_⟩
    unfold likeRow
    rw [hct]
    exact (sqlLike_sub _ hw _).2 hsub
  · unfold listCustomers
    rw [if_neg hq]
    exact List.Chain'.take (sortedByName_sortByName _) 1000
  · intro x hx
    unfold listCustomers at hx
    rw [if_pos rfl] at hx
    exact (mem_sortByName _ _).1 (List.take_subset _ _ hx)
  · intro hlen x hx
    unfold listCustomers
    rw [if_pos rfl, List.take_of_length_le (by rw [length_sortByName]; exact hlen),
        mem_sortByName]
    exact hx
  · unfold listCustomers
    rw [if_pos rfl]
    exact List.Chain'.take (sortedByName_sortByName _) 1000

def custC8 : Customer :=
  ⟨['c', '1'], ['a', 's', 'h', 'a'], none, some ['9'], none, none, some ['j']⟩
def dbC8 : DB := ⟨[custC8], [], [], [], [], [], [], []⟩
def qC8 : Str := ['a', 's', 'h', 'a']

def custC8b : Customer :=
  ⟨['c', '2'], ['b', 'o', 'b'], some ['e'], some ['7'], some ['h'], some ['s'], some ['t']⟩
def dbC8w : DB := ⟨[custC8b], [], [], [], [], [], [], []⟩
def qC8w : Str := ['B', 'o', 'b']
def concatC8b : Str := ['c', '2', ' ', 'b', 'o', 'b', ' ', 'e', ' ', '7', ' ', 't']

def mkCust (n : ℕ) : Customer :=
  ⟨List.replicate n 'x', ['b'], some [], some [], some [], some [], some []⟩
def bigDb : DB := ⟨(List.range 1001).map mkCust, [], [], [], [], [], [], []⟩
def qB : Str := ['b']

/-- The concatenation a generated cap-test row produces. -/
theorem concatRow_mkCust (n : ℕ) :
    concatRow (mkCust n) = some ((List.replicate n 'x' ++ [' ']) ++ ['b', ' ', ' ', ' ']) := by
  simp [concatRow, mkCust]

/-- Every generated cap-test row satisfies the claim's match predicate. -/
theorem mkCust_matches (n : ℕ) :
    ∃ t, concatRow (mkCust n) = some t ∧ isSub (lowerStr qB) (lowerStr t) := by
  refine ⟨(List.replicate n 'x' ++ [' ']) ++ ['b', ' ', ' ', ' '], concatRow_mkCust n, ?_⟩
  refine ⟨lowerStr (List.replicate n 'x' ++ [' ']), [' ', ' ', ' '], ?_⟩
  rw [show lowerStr qB = ['b'] from rfl]
  unfold lowerStr
  rw [List.map_append]
  rw [show List.map Char.toLower ['b', ' ', ' ', ' '] = ['b', ' ', ' ', ' '] from rfl]
  simp [List.append_assoc]

/-- Every generated cap-test row passes the handler's LIKE filter. -/
theorem likeRow_mkCust (n : ℕ) : likeRow qB (mkCust n) = true := by
  obtain ⟨t, hct, hsub⟩ := mkCust_matches n
  unfold likeRow
  rw [hct]
  exact (sqlLike_sub _ ⟨by decide, by decide⟩ _).2 hsub

set_option maxRecDepth 4096 in
/-- With 1001 stored rows all matching the filter, the handler returns
only 1000 of them (`LIMIT 1000`). -/
theorem cap_truncation :
    (∀ c ∈ bigDb.customers, ∃ t, concatRow c = some t ∧ isSub (lowerStr qB) (lowerStr t)) ∧
    bigDb.customers.length = 1001 ∧ (listCustomers bigDb qB).length = 1000 := by
  have hfilter : bigDb.customers.filter (fun c => likeRow qB c) = bigDb.customers := by
    apply List.filter_eq_self.mpr
    intro c hc
    obtain ⟨n, -, rfl⟩ := List.mem_map.1 hc
    exact likeRow_mkCust n
  have hlen : bigDb.customers.length = 1001 := by
    simp [bigDb]
  refine ⟨?_, hlen, ?_⟩
  · intro c hc
    obtain ⟨n, -, rfl⟩ := List.mem_map.1 hc
    exact mkCust_matches n
  · unfold listCustomers
    rw [if_neg (by decide : ¬ (qB = []))]
    rw [hfilter, List.length_take, length_sortByName, hlen]
    omega

/-- C8 counterexample, one conjunct per failure of the claim as stated:
(i) a stored customer whose `email` is NULL is never returned by a
non-empty filter, even one equal to the customer's name — the SQL
concatenation is NULL, so `LIKE` is not true; (ii) the filter `%` (and
(iii) the filter `_`) returns a row although it is not a substring of
the row's concatenation — LIKE wildcards are interpreted, not literal;
(iv) with 1001 stored rows all matching, only 1000 rows come back, so a
matching row is missing. -/
theorem spec_c8_customer_filter_counterexample :
    (custC8 ∈ dbC8.customers ∧
      isSub (lowerStr qC8) (lowerStr custC8.cust_name) ∧
      listCustomers dbC8 qC8 = [])
    ∧ (concatRow custC8b = some concatC8b ∧
        listCustomers dbC8w (['%'] : Str) = [custC8b] ∧
        ¬ isSub (lowerStr (['%'] : Str)) (lowerStr concatC8b))
    ∧ (listCustomers dbC8w (['_'] : Str) = [custC8b] ∧
        ¬ isSub (lowerStr (['_'] : Str)) (lowerStr concatC8b))
    ∧ ((∀ c ∈ bigDb.customers, ∃ t, concatRow c = some t ∧ isSub (lowerStr qB) (lowerStr t)) ∧
        bigDb.customers.length = 1001 ∧ (listCustomers bigDb qB).length = 1000) := by
  refine ⟨⟨by decide, ⟨[], [], rfl⟩, by decide⟩, ⟨by decide, by decide, ?_⟩,
          ⟨by decide, ?_⟩, cap_truncation⟩
  · intro h
    have hm : ('%' : Char) ∈ lowerStr concatC8b :=
      isSub_mem h (show ('%' : Char) ∈ lowerStr (['%'] : Str) by decide)
    exact absurd hm (by decide)
  · intro h
    have hm : ('_' : Char) ∈ lowerStr concatC8b :=
      isSub_mem h (show ('_' : Char) ∈ lowerStr (['_'] : Str) by decide)
    exact absurd hm (by decide)

/-- C8 witness: the ASCII wildcard-free filter `Bob` (case-insensitively)
returns the stored customer `bob`, all of whose concatenated fields are
non-NULL. -/
theorem spec_c8_customer_filter_witness :
    custC8b ∈ listCustomers dbC8w qC8w := by
  have h := (spec_c8_customer_filter dbC8w qC8w custC8b (by decide) (by decide)
      ⟨by decide, by decide⟩).2.1
  exact h (by decide) (by decide)
    ⟨['c', '2', ' ', 'b', 'o', 'b', ' ', 'e', ' ', '7', ' ', 't'], rfl,
     ⟨['c', '2', ' '], [' ', 'e', ' ', '7', ' ', 't'], rfl⟩⟩
